import Mathlib

/-!
Shallow embedding of the telphi-sdk call core: the Janus gateway transport
(useSendMessage / useHandleMessage), the ICE-candidate buffering of the
negotiation layer (useHandleRemoteTrickle / useHandleRemoteJsep /
useAddIceCandidate), the teardown routine (useCleanupCall), call-state
persistence (saveCallState / loadCallState / restoreFromPersistedState),
the reconnection flow (useReconnectCall), the SIP event dispatcher
(useHandleSipEvent with the handleHangup callback), and the call channel
client (useCallChannel).  Each definition is translated from the
corresponding TypeScript function; theorems settle the specification
claims about them.
-/

set_option maxHeartbeats 1000000

/-- JavaScript truthiness of a nullable string (`null`, `undefined` and the
empty string are falsy). Used wherever the source tests a string with
`if (x)` / `!!x`. -/
def truthy : Option String → Bool
  | none => false
  | some s => s ≠ ""

/-- A remote ICE candidate as it appears on the wire: either a real
candidate payload or the `completed: true` gathering-complete marker. -/
structure Candidate where
  completed : Bool
  payload : String
  deriving DecidableEq, Repr

/-- The mutable call refs of `useWebRTCRefs` touched by the negotiation and
cleanup code: peer connection and local stream presence, the audio
elements' attached streams, the pending ICE-candidate queue and the
remote-description flag, plus the store's `audioBlocked` flag that
`useCleanupCall` also resets.  `nativeAddCalls` is the observation
history: the real candidates passed to `pc.addIceCandidate`, in order. -/
structure CallRefs where
  pc : Bool
  localStream : Bool
  remoteAudioSrc : Bool
  localAudioSrc : Bool
  pendingCandidates : List (Option Candidate)
  remoteDescriptionSet : Bool
  audioBlocked : Bool
  nativeAddCalls : List Candidate
  deriving DecidableEq, Repr

/-- `useCleanupCall`: close and drop the peer connection, stop and drop the
local stream, detach both audio elements, reset the ICE queue state and
the audio-blocked flag. -/
def cleanupCall (s : CallRefs) : CallRefs :=
  { s with
    pc := false
    localStream := false
    remoteAudioSrc := false
    localAudioSrc := false
    pendingCandidates := []
    remoteDescriptionSet := false
    audioBlocked := false }

/-- The native `pc.addIceCandidate` call, which may reject; `err` is the
environment oracle saying which candidates the browser rejects. -/
def nativeAddIceCandidate (err : Candidate → Bool) (c : Candidate) :
    Except String Unit :=
  if err c then Except.error "Error adding remote ICE candidate" else Except.ok ()

/-- `useAddIceCandidate`: no-op without a peer connection; for a real
(non-`completed`) candidate call the native API and swallow any error;
for `null` or a `completed` marker just log. -/
def addIceCandidate (err : Candidate → Bool) (s : CallRefs)
    (cand : Option Candidate) : CallRefs :=
  if s.pc = false then s
  else
    match cand with
    | some c =>
        if c.completed = false then
          let s1 := { s with nativeAddCalls := s.nativeAddCalls ++ [c] }
          match nativeAddIceCandidate err c with
          | Except.ok _ => s1
          | Except.error _ => s1
        else s
    | none => s

/-- `useHandleRemoteTrickle`: queue the candidate while no remote
description is set, otherwise apply it immediately through
`addIceCandidate`. -/
def handleRemoteTrickle (err : Candidate → Bool) (s : CallRefs)
    (cand : Option Candidate) : CallRefs :=
  if s.remoteDescriptionSet = false then
    { s with pendingCandidates := s.pendingCandidates ++ [cand] }
  else addIceCandidate err s cand

/-- `useHandleRemoteJsep`: no-op without a peer connection; if
`setRemoteDescription` fails (`sdpFails`) the error is logged and nothing
changes; on success mark the remote description set, empty the queue and
apply every queued entry in order through `addIceCandidate`. -/
def handleRemoteJsep (err : Candidate → Bool) (sdpFails : Bool)
    (s : CallRefs) : CallRefs :=
  if s.pc = false then s
  else if sdpFails then s
  else
    let pending := s.pendingCandidates
    let s1 := { s with remoteDescriptionSet := true, pendingCandidates := [] }
    pending.foldl (addIceCandidate err) s1

/-- The real candidates among a queue of trickle entries: drop the `null`
sentinels and the `completed` markers, keeping order. -/
def realCandidates (l : List (Option Candidate)) : List Candidate :=
  (l.filterMap id).filter (fun c => c.completed = false)

lemma addIceCandidate_eq (err : Candidate → Bool) (s : CallRefs)
    (cand : Option Candidate) (h : s.pc = true) :
    addIceCandidate err s cand =
      { s with nativeAddCalls := s.nativeAddCalls ++ realCandidates [cand] } := by
  obtain ⟨pc, ls, ra, la, pend, rds, ab, nac⟩ := s
  simp only at h
  subst h
  unfold addIceCandidate realCandidates nativeAddIceCandidate
  rcases cand with _ | c
  · simp
  · rcases hc : c.completed with _ | _
    · by_cases he : err c = true <;>
        simp [hc, he, List.filterMap_cons, List.filter_cons]
    · simp [hc, List.filterMap_cons, List.filter_cons]

lemma foldl_addIceCandidate (err : Candidate → Bool)
    (l : List (Option Candidate)) (s : CallRefs) (h : s.pc = true) :
    l.foldl (addIceCandidate err) s =
      { s with nativeAddCalls := s.nativeAddCalls ++ realCandidates l } := by
  induction l generalizing s with
  | nil => simp [realCandidates]
  | cons c rest ih =>
      rw [List.foldl_cons, addIceCandidate_eq err s c h]
      rw [ih _ (by simp [h])]
      simp only [realCandidates, List.filterMap_cons, List.map_id]
      rcases c with _ | c
      · simp
      · rcases hc : c.completed with _ | _ <;>
          simp [hc, List.filter_cons, List.append_assoc]

/-- WebSocket ready states; `opened` stands for `WebSocket.OPEN`. -/
inductive ReadyState where
  | connecting
  | opened
  | closing
  | closed
  deriving DecidableEq, Repr

/-- A signaling socket as the transport sees it. -/
structure Socket where
  readyState : ReadyState
  deriving DecidableEq, Repr

/-- An inbound Janus frame, reduced to the fields the transport layer
inspects: the `transaction` correlation field, the `janus` discriminator,
the optional `error.reason` payload, and an opaque rest-of-payload. -/
structure InboundMsg where
  transaction : Option String
  janus : String
  errorReason : Option String
  body : String
  deriving DecidableEq, Repr

/-- How a pending `useSendMessage` promise can settle. -/
inductive Settled where
  | resolved (response : InboundMsg)
  | rejected (reason : String)
  deriving DecidableEq, Repr

/-- The resolver registered by `useSendMessage`: a gateway `error` frame
rejects with a reason derived from the error payload, anything else
resolves with the raw response. -/
def resolverOutcome (response : InboundMsg) : Settled :=
  if response.janus = "error" then
    Settled.rejected (response.errorReason.getD "Janus error")
  else Settled.resolved response

/-- The state of one outstanding transaction after `send` registered it:
whether the resolver is still in `transactionsRef`, whether the 10-second
timer is still pending, and whether (and how) the promise has settled. -/
structure TxnState where
  registered : Bool
  timerActive : Bool
  outcome : Option Settled
  deriving DecidableEq, Repr

/-- State right after `useSendMessage` registered the resolver and started
the timer on an open socket. -/
def initTxn : TxnState := { registered := true, timerActive := true, outcome := none }

/-- Events that can reach one transaction: its 10-second timer firing, or
an inbound frame arriving at `useHandleMessage`. -/
inductive TxnEvent where
  | timeoutFire
  | recv (msg : InboundMsg)
  deriving DecidableEq, Repr

/-- `useHandleMessage`'s dispatch test for this transaction:
`msg.transaction` is truthy and is the key registered in the map. -/
def matchesTxn (tid : String) (msg : InboundMsg) : Bool :=
  match msg.transaction with
  | some t => t ≠ "" && t = tid
  | none => false

/-- A promise settles at most once; late resolve/reject calls are no-ops. -/
def settlePromise (s : TxnState) (o : Settled) : Option Settled :=
  match s.outcome with
  | some x => some x
  | none => some o

/-- One event against one registered transaction.  The timer callback
(when the timer was not cleared) deletes the registration and rejects with
the timeout error; a frame whose `transaction` matches a registered
resolver runs that resolver, which clears the timer, deletes the
registration and settles per `resolverOutcome`.  Everything else leaves
the transaction alone. -/
def txnStep (tid : String) (s : TxnState) : TxnEvent → TxnState
  | TxnEvent.timeoutFire =>
      if s.timerActive then
        { registered := false, timerActive := false,
          outcome := settlePromise s (Settled.rejected "Transaction timeout") }
      else s
  | TxnEvent.recv msg =>
      if matchesTxn tid msg && s.registered then
        { registered := false, timerActive := false,
          outcome := settlePromise s (resolverOutcome msg) }
      else s

/-- Run a sequence of events against a freshly registered transaction. -/
def runTxn (tid : String) (evs : List TxnEvent) : TxnState :=
  evs.foldl (txnStep tid) initTxn

/-- The events that can settle this transaction: its own timeout, or a
frame matching its transaction id. -/
def settlesTxn (tid : String) : TxnEvent → Bool
  | TxnEvent.timeoutFire => true
  | TxnEvent.recv msg => matchesTxn tid msg

/-- The outcome the first settling event produces. -/
def eventOutcome : TxnEvent → Settled
  | TxnEvent.timeoutFire => Settled.rejected "Transaction timeout"
  | TxnEvent.recv msg => resolverOutcome msg

lemma txnStep_settled (tid : String) (s : TxnState) (e : TxnEvent)
    (h1 : s.registered = false) (h2 : s.timerActive = false) :
    txnStep tid s e = s := by
  cases e <;> simp [txnStep, h1, h2]

lemma foldl_txnStep_settled (tid : String) (evs : List TxnEvent) (s : TxnState)
    (h1 : s.registered = false) (h2 : s.timerActive = false) :
    evs.foldl (txnStep tid) s = s := by
  induction evs with
  | nil => rfl
  | cons e rest ih =>
      rw [List.foldl_cons, txnStep_settled tid s e h1 h2]
      exact ih

lemma runTxn_eq (tid : String) (evs : List TxnEvent) :
    runTxn tid evs =
      match evs.find? (settlesTxn tid) with
      | none => initTxn
      | some e =>
          { registered := false, timerActive := false,
            outcome := some (eventOutcome e) } := by
  induction evs with
  | nil => rfl
  | cons e rest ih =>
      by_cases hs : settlesTxn tid e = true
      · have hstep : txnStep tid initTxn e =
            { registered := false, timerActive := false,
              outcome := some (eventOutcome e) } := by
          cases e with
          | timeoutFire => rfl
          | recv msg =>
              simp only [settlesTxn] at hs
              simp [txnStep, hs, initTxn, settlePromise, eventOutcome]
        rw [List.find?_cons_of_pos _ hs]
        show (e :: rest).foldl (txnStep tid) initTxn = _
        rw [List.foldl_cons, hstep, foldl_txnStep_settled tid rest _ rfl rfl]
      · have hstep : txnStep tid initTxn e = initTxn := by
          cases e with
          | timeoutFire => simp [settlesTxn] at hs
          | recv msg =>
              simp only [settlesTxn] at hs
              simp [txnStep, hs]
        rw [List.find?_cons_of_neg _ (by simp [hs])]
        show (e :: rest).foldl (txnStep tid) initTxn = _
        rw [List.foldl_cons, hstep]
        exact ih

/-- C1: while the socket is open, a request sent by the gateway transport
is settled by exactly one of: the first inbound frame whose `transaction`
field equals the generated transaction id (resolving with the response, or
rejecting with the reason derived from the error payload when the frame is
a gateway `error`), or the 10-second timeout; never both.  In either case
the resolver registration is removed, so any events after the settling one
(in particular a duplicate reply with the same transaction id) leave the
transaction state unchanged. -/
theorem transaction_settled_exactly_once (tid : String)
    (evs extra : List TxnEvent) (h : tid ≠ "") :
    (∀ msg : InboundMsg, matchesTxn tid msg = decide (msg.transaction = some tid))
    ∧ (runTxn tid evs).outcome = (evs.find? (settlesTxn tid)).map eventOutcome
    ∧ (runTxn tid evs).registered = (evs.find? (settlesTxn tid)).isNone
    ∧ (evs.find? (settlesTxn tid) ≠ none →
        runTxn tid (evs ++ extra) = runTxn tid evs) := by
  refine ⟨?_, ?_, ?_, ?_⟩
  · intro msg
    unfold matchesTxn
    rcases msg.transaction with _ | t
    · simp
    · by_cases ht : t = tid
      · subst ht
        simp [h]
      · simp [ht]
  · rw [runTxn_eq]
    cases evs.find? (settlesTxn tid) <;> simp [initTxn]
  · rw [runTxn_eq]
    cases evs.find? (settlesTxn tid) <;> simp [initTxn]
  · intro hne
    rcases hfind : evs.find? (settlesTxn tid) with _ | e
    · exact absurd hfind hne
    · have hs : runTxn tid evs =
          { registered := false, timerActive := false,
            outcome := some (eventOutcome e) } := by
        rw [runTxn_eq, hfind]
      show (evs ++ extra).foldl (txnStep tid) initTxn = runTxn tid evs
      rw [List.foldl_append]
      show extra.foldl (txnStep tid) (runTxn tid evs) = runTxn tid evs
      rw [hs]
      exact foldl_txnStep_settled tid extra _ rfl rfl

/-- Witness for C1 at a concrete transaction id and a concrete trace: a
matching success reply, then the timer, then a duplicate reply. -/
theorem transaction_settled_exactly_once_witness :
    ("t1abc" : String) ≠ ""
    ∧ ((∀ msg : InboundMsg,
          matchesTxn "t1abc" msg = decide (msg.transaction = some "t1abc"))
      ∧ (runTxn "t1abc"
            [TxnEvent.recv { transaction := some "t1abc", janus := "success",
                             errorReason := none, body := "r" },
             TxnEvent.timeoutFire]).outcome =
          ([TxnEvent.recv { transaction := some "t1abc", janus := "success",
                            errorReason := none, body := "r" },
            TxnEvent.timeoutFire].find? (settlesTxn "t1abc")).map eventOutcome
      ∧ (runTxn "t1abc"
            [TxnEvent.recv { transaction := some "t1abc", janus := "success",
                             errorReason := none, body := "r" },
             TxnEvent.timeoutFire]).registered =
          ([TxnEvent.recv { transaction := some "t1abc", janus := "success",
                            errorReason := none, body := "r" },
            TxnEvent.timeoutFire].find? (settlesTxn "t1abc")).isNone
      ∧ ([TxnEvent.recv { transaction := some "t1abc", janus := "success",
                          errorReason := none, body := "r" },
          TxnEvent.timeoutFire].find? (settlesTxn "t1abc") ≠ none →
          runTxn "t1abc"
            ([TxnEvent.recv { transaction := some "t1abc", janus := "success",
                              errorReason := none, body := "r" },
              TxnEvent.timeoutFire] ++
             [TxnEvent.recv { transaction := some "t1abc", janus := "success",
                              errorReason := none, body := "dup" }]) =
          runTxn "t1abc"
            [TxnEvent.recv { transaction := some "t1abc", janus := "success",
                             errorReason := none, body := "r" },
             TxnEvent.timeoutFire])) :=
  ⟨by decide,
   transaction_settled_exactly_once "t1abc"
     [TxnEvent.recv { transaction := some "t1abc", janus := "success",
                      errorReason := none, body := "r" },
      TxnEvent.timeoutFire]
     [TxnEvent.recv { transaction := some "t1abc", janus := "success",
                      errorReason := none, body := "dup" }]
     (by decide)⟩

/-- Outcome of a `useSendMessage` call, as the caller and the transaction
map observe it. -/
inductive SendOutcome where
  | rejected (reason : String)
  | registered (tid : String)
  deriving DecidableEq, Repr

/-- The entry guard and registration step of `useSendMessage`: with no
socket, or a socket not in the OPEN state, the promise rejects at once and
the transaction map is untouched; otherwise the freshly generated
transaction id `tid` is registered in the map. -/
def sendMessage (ws : Option Socket) (txns : List String) (tid : String) :
    SendOutcome × List String :=
  match ws with
  | none => (SendOutcome.rejected "WebSocket not connected", txns)
  | some sock =>
      if sock.readyState ≠ ReadyState.opened then
        (SendOutcome.rejected "WebSocket not connected", txns)
      else (SendOutcome.registered tid, txns ++ [tid])

/-- C8: if the signaling socket is absent or not open, `send` rejects
immediately with the connection error and the transaction map is exactly
what it was. -/
theorem send_rejects_without_open_socket (ws : Option Socket)
    (txns : List String) (tid : String)
    (h : ∀ sock, ws = some sock → sock.readyState ≠ ReadyState.opened) :
    sendMessage ws txns tid =
      (SendOutcome.rejected "WebSocket not connected", txns) := by
  unfold sendMessage
  rcases ws with _ | sock
  · rfl
  · simp [h sock rfl]

/-- Witness for C8 on a closed socket with a nonempty transaction map. -/
theorem send_rejects_without_open_socket_witness :
    (∀ sock : Socket, some { readyState := ReadyState.closed } = some sock →
        sock.readyState ≠ ReadyState.opened)
    ∧ sendMessage (some { readyState := ReadyState.closed }) ["t0"] "t1"
        = (SendOutcome.rejected "WebSocket not connected", ["t0"]) :=
  ⟨fun sock hs => by cases hs; decide,
   send_rejects_without_open_socket _ _ _ (fun sock hs => by cases hs; decide)⟩

/-- C2: while no remote description is set, every remote trickle entry
(including the `null` gathering-complete sentinel) is appended to the
pending queue in arrival order; when `setRemoteDescription` succeeds the
queued entries are flushed through the add-candidate path in FIFO order —
the native API sees exactly the real (non-`null`, non-`completed`)
candidates, in order — and the queue is left empty; once the flag is set a
candidate is applied immediately via the same `addIceCandidate` path.
The flush result is stated for an arbitrary per-candidate failure oracle
`err`, so a native failure on one candidate does not abort the rest. -/
theorem ice_candidates_fifo (err : Candidate → Bool) (s : CallRefs)
    (cand : Option Candidate) (hpc : s.pc = true) :
    (s.remoteDescriptionSet = false →
        handleRemoteTrickle err s cand =
          { s with pendingCandidates := s.pendingCandidates ++ [cand] })
    ∧ handleRemoteJsep err false s =
        { s with remoteDescriptionSet := true
                 pendingCandidates := []
                 nativeAddCalls :=
                   s.nativeAddCalls ++ realCandidates s.pendingCandidates }
    ∧ (s.remoteDescriptionSet = true →
        handleRemoteTrickle err s cand = addIceCandidate err s cand) := by
  refine ⟨?_, ?_, ?_⟩
  · intro hrd
    simp [handleRemoteTrickle, hrd]
  · have h1 : handleRemoteJsep err false s =
        s.pendingCandidates.foldl (addIceCandidate err)
          { s with remoteDescriptionSet := true, pendingCandidates := [] } := by
      unfold handleRemoteJsep
      simp [hpc]
    rw [h1, foldl_addIceCandidate err _ _ (by simp [hpc])]
  · intro hrd
    simp [handleRemoteTrickle, hrd]

/-- Witness for C2 on the spec scenario queue `[C1, null, C2]` with a
native failure injected on `C1`. -/
theorem ice_candidates_fifo_witness :
    ({ pc := true, localStream := true, remoteAudioSrc := false,
       localAudioSrc := false,
       pendingCandidates := [some { completed := false, payload := "C1" },
                             none,
                             some { completed := false, payload := "C2" }],
       remoteDescriptionSet := false, audioBlocked := false,
       nativeAddCalls := [] } : CallRefs).pc = true
    ∧ (({ pc := true, localStream := true, remoteAudioSrc := false,
          localAudioSrc := false,
          pendingCandidates := [some { completed := false, payload := "C1" },
                                none,
                                some { completed := false, payload := "C2" }],
          remoteDescriptionSet := false, audioBlocked := false,
          nativeAddCalls := [] } : CallRefs).remoteDescriptionSet = false →
        handleRemoteTrickle (fun c => c.payload = "C1")
          { pc := true, localStream := true, remoteAudioSrc := false,
            localAudioSrc := false,
            pendingCandidates := [some { completed := false, payload := "C1" },
                                  none,
                                  some { completed := false, payload := "C2" }],
            remoteDescriptionSet := false, audioBlocked := false,
            nativeAddCalls := [] }
          (some { completed := true, payload := "" }) =
          { pc := true, localStream := true, remoteAudioSrc := false,
            localAudioSrc := false,
            pendingCandidates := [some { completed := false, payload := "C1" },
                                  none,
                                  some { completed := false, payload := "C2" }] ++
              [some { completed := true, payload := "" }],
            remoteDescriptionSet := false, audioBlocked := false,
            nativeAddCalls := [] })
    ∧ handleRemoteJsep (fun c => c.payload = "C1") false
        { pc := true, localStream := true, remoteAudioSrc := false,
          localAudioSrc := false,
          pendingCandidates := [some { completed := false, payload := "C1" },
                                none,
                                some { completed := false, payload := "C2" }],
          remoteDescriptionSet := false, audioBlocked := false,
          nativeAddCalls := [] } =
        { pc := true, localStream := true, remoteAudioSrc := false,
          localAudioSrc := false,
          pendingCandidates := []
          remoteDescriptionSet := true
          audioBlocked := false
          nativeAddCalls :=
            [] ++ realCandidates [some { completed := false, payload := "C1" },
                                  none,
                                  some { completed := false, payload := "C2" }] }
    ∧ (({ pc := true, localStream := true, remoteAudioSrc := false,
          localAudioSrc := false,
          pendingCandidates := [some { completed := false, payload := "C1" },
                                none,
                                some { completed := false, payload := "C2" }],
          remoteDescriptionSet := false, audioBlocked := false,
          nativeAddCalls := [] } : CallRefs).remoteDescriptionSet = true →
        handleRemoteTrickle (fun c => c.payload = "C1")
          { pc := true, localStream := true, remoteAudioSrc := false,
            localAudioSrc := false,
            pendingCandidates := [some { completed := false, payload := "C1" },
                                  none,
                                  some { completed := false, payload := "C2" }],
            remoteDescriptionSet := false, audioBlocked := false,
            nativeAddCalls := [] }
          (some { completed := true, payload := "" }) =
          addIceCandidate (fun c => c.payload = "C1")
            { pc := true, localStream := true, remoteAudioSrc := false,
              localAudioSrc := false,
              pendingCandidates := [some { completed := false, payload := "C1" },
                                    none,
                                    some { completed := false, payload := "C2" }],
              remoteDescriptionSet := false, audioBlocked := false,
              nativeAddCalls := [] }
            (some { completed := true, payload := "" })) :=
  ⟨rfl,
   ice_candidates_fifo (fun c => c.payload = "C1")
     { pc := true, localStream := true, remoteAudioSrc := false,
       localAudioSrc := false,
       pendingCandidates := [some { completed := false, payload := "C1" },
                             none,
                             some { completed := false, payload := "C2" }],
       remoteDescriptionSet := false, audioBlocked := false,
       nativeAddCalls := [] }
     (some { completed := true, payload := "" }) rfl⟩

/-- C9: `useCleanupCall` is idempotent, and after any run the peer
connection and local stream refs are released, the pending ICE-candidate
queue is empty, and the remote-description flag is false. -/
theorem cleanupCall_idempotent (s : CallRefs) :
    cleanupCall (cleanupCall s) = cleanupCall s
    ∧ (cleanupCall s).pc = false
    ∧ (cleanupCall s).localStream = false
    ∧ (cleanupCall s).pendingCandidates = []
    ∧ (cleanupCall s).remoteDescriptionSet = false := by
  simp [cleanupCall]

/-- `PersistedCallState` from types.ts: the record stored under the
well-known sessionStorage key. -/
structure PersistedCallState where
  callId : String
  endpointId : String
  endpointName : Option String
  appName : Option String
  startedAt : Int
  wsToken : Option String
  telproDomain : Option String
  deriving DecidableEq, Repr

/-- `MAX_CALL_AGE_MS` from loadCallState: the 20-second freshness TTL. -/
def MAX_CALL_AGE_MS : Int := 20 * 1000

/-- `loadCallState` at time `now` against the current storage contents:
returns the loaded state (or nothing) together with the storage contents
afterwards.  A record whose age exceeds the TTL is cleared and not
returned. -/
def loadCallState (now : Int) (storage : Option PersistedCallState) :
    Option PersistedCallState × Option PersistedCallState :=
  match storage with
  | none => (none, none)
  | some st =>
      if now - st.startedAt > MAX_CALL_AGE_MS then (none, none)
      else (some st, some st)

/-- JavaScript `x || null` on a nullable string. -/
def orNull (x : Option String) : Option String :=
  if truthy x then x else none

/-- The connection slice of the zustand store that
`restoreFromPersistedState` touches. -/
structure ConnState where
  connected : Bool
  registered : Bool
  initialized : Bool
  reconnecting : Bool
  deriving DecidableEq, Repr

/-- The call-data slice of the zustand store that
`restoreFromPersistedState` touches. -/
structure CallData where
  endpointId : String
  endpointName : String
  appName : String
  currentCallId : Option String
  currentWsToken : Option String
  telproDomain : Option String
  deriving DecidableEq, Repr

/-- The store state seen by `restoreFromPersistedState`. -/
structure StoreState where
  connection : ConnState
  callData : CallData
  deriving DecidableEq, Repr

/-- `restoreFromPersistedState` (webrtcPhoneStore.ts): load the persisted
record; if nothing was loaded return null.  Otherwise write the restored
fields into the store (reconnecting := true, initialized := domain
truthiness, call data from the record; the source's changed-field
comparison only skips a write of identical values and is observationally
the same).  If the record has no truthy signaling domain, clear storage,
drop the reconnecting flag again and return null; otherwise return the
record.  Result: (returned value, storage afterwards, store afterwards). -/
def restoreFromPersistedState (now : Int) (storage : Option PersistedCallState)
    (st : StoreState) :
    Option PersistedCallState × Option PersistedCallState × StoreState :=
  match loadCallState now storage with
  | (none, storage1) => (none, storage1, st)
  | (some stored, storage1) =>
      let st1 : StoreState :=
        { connection := { st.connection with
            reconnecting := true
            initialized := truthy stored.telproDomain }
          callData := { st.callData with
            endpointId := stored.endpointId
            endpointName := stored.endpointName.getD ""
            appName := stored.appName.getD ""
            currentCallId := if stored.callId ≠ "" then some stored.callId else none
            currentWsToken := orNull stored.wsToken
            telproDomain := orNull stored.telproDomain } }
      if truthy stored.telproDomain = false then
        (none, none,
          { st1 with connection := { st1.connection with reconnecting := false } })
      else (some stored, storage1, st1)

/-- C3: `restore()` returns nothing when no record is persisted; a record
more than 20 seconds old at load time is deleted and nothing is returned;
a fresh record without a signaling domain is deleted, the reconnecting
flag ends up cleared, and nothing is returned; otherwise the stored state
is returned, stays persisted, and the store is marked reconnecting. -/
theorem restore_stale_and_domain_guards (now : Int)
    (storage : Option PersistedCallState) (st : StoreState) :
    (storage = none →
        restoreFromPersistedState now storage st = (none, none, st))
    ∧ (∀ s0, storage = some s0 → now - s0.startedAt > MAX_CALL_AGE_MS →
        restoreFromPersistedState now storage st = (none, none, st))
    ∧ (∀ s0, storage = some s0 → now - s0.startedAt ≤ MAX_CALL_AGE_MS →
        truthy s0.telproDomain = false →
        (restoreFromPersistedState now storage st).1 = none
        ∧ (restoreFromPersistedState now storage st).2.1 = none
        ∧ (restoreFromPersistedState now storage st).2.2.connection.reconnecting
            = false)
    ∧ (∀ s0, storage = some s0 → now - s0.startedAt ≤ MAX_CALL_AGE_MS →
        truthy s0.telproDomain = true →
        (restoreFromPersistedState now storage st).1 = some s0
        ∧ (restoreFromPersistedState now storage st).2.1 = some s0
        ∧ (restoreFromPersistedState now storage st).2.2.connection.reconnecting
            = true) := by
  refine ⟨?_, ?_, ?_, ?_⟩
  · intro h
    subst h
    rfl
  · intro s0 h hage
    subst h
    simp [restoreFromPersistedState, loadCallState, hage]
  · intro s0 h hage hdom
    subst h
    simp [restoreFromPersistedState, loadCallState, not_lt.mpr hage, hdom]
  · intro s0 h hage hdom
    subst h
    simp [restoreFromPersistedState, loadCallState, not_lt.mpr hage, hdom]

/-- Witness for C3: a fresh record with a domain is returned and the store
is marked reconnecting. -/
theorem restore_stale_and_domain_guards_witness :
    (restoreFromPersistedState 1000
        (some { callId := "c1", endpointId := "e1", endpointName := none,
                appName := none, startedAt := 0, wsToken := none,
                telproDomain := some "tp.example" })
        { connection := { connected := false, registered := false,
                          initialized := false, reconnecting := false }
          callData := { endpointId := "", endpointName := "", appName := "",
                        currentCallId := none, currentWsToken := none,
                        telproDomain := none } }).1 =
      some { callId := "c1", endpointId := "e1", endpointName := none,
             appName := none, startedAt := 0, wsToken := none,
             telproDomain := some "tp.example" }
    ∧ (restoreFromPersistedState 1000
        (some { callId := "c1", endpointId := "e1", endpointName := none,
                appName := none, startedAt := 0, wsToken := none,
                telproDomain := some "tp.example" })
        { connection := { connected := false, registered := false,
                          initialized := false, reconnecting := false }
          callData := { endpointId := "", endpointName := "", appName := "",
                        currentCallId := none, currentWsToken := none,
                        telproDomain := none } }).2.1 =
      some { callId := "c1", endpointId := "e1", endpointName := none,
             appName := none, startedAt := 0, wsToken := none,
             telproDomain := some "tp.example" }
    ∧ (restoreFromPersistedState 1000
        (some { callId := "c1", endpointId := "e1", endpointName := none,
                appName := none, startedAt := 0, wsToken := none,
                telproDomain := some "tp.example" })
        { connection := { connected := false, registered := false,
                          initialized := false, reconnecting := false }
          callData := { endpointId := "", endpointName := "", appName := "",
                        currentCallId := none, currentWsToken := none,
                        telproDomain := none } }).2.2.connection.reconnecting
      = true :=
  (restore_stale_and_domain_guards 1000
      (some { callId := "c1", endpointId := "e1", endpointName := none,
              appName := none, startedAt := 0, wsToken := none,
              telproDomain := some "tp.example" })
      { connection := { connected := false, registered := false,
                        initialized := false, reconnecting := false }
        callData := { endpointId := "", endpointName := "", appName := "",
                      currentCallId := none, currentWsToken := none,
                      telproDomain := none } }).2.2.2
    { callId := "c1", endpointId := "e1", endpointName := none,
      appName := none, startedAt := 0, wsToken := none,
      telproDomain := some "tp.example" }
    rfl (by decide) (by decide)

/-- Connection states of the call channel client. -/
inductive ChanConnState where
  | disconnected
  | connecting
  | connected
  | reconnecting
  deriving DecidableEq, Repr

/-- The channel-client state the `ws.onclose` handler touches: connection
state, ping timer presence, the scheduled reconnect delay if any, and the
text-chat flag (reset on every disconnect). -/
structure ChannelState where
  connectionState : ChanConnState
  pingTimer : Bool
  reconnectTimer : Option Nat
  textChatEnabled : Bool
  deriving DecidableEq, Repr

/-- Default `reconnectDelay` option of `useCallChannel`, in milliseconds. -/
def defaultReconnectDelay : Nat := 2000

/-- The `shouldReconnect` condition computed by `ws.onclose`: auto-reconnect
on, callId and wsToken truthy, and the close code outside
{1000, 4000, 4001..4099}. -/
def shouldReconnect (autoReconnect : Bool) (callId wsToken : Option String)
    (code : Nat) : Bool :=
  autoReconnect && truthy callId && truthy wsToken &&
    decide (code ≠ 1000) && decide (code ≠ 4000) &&
    !(decide (4001 ≤ code) && decide (code ≤ 4099))

/-- The `ws.onclose` handler of `useCallChannel.connect`: stop the ping
timer, reset the text-chat flag, then either schedule a reconnect after
`reconnectDelay` and enter `reconnecting`, or enter `disconnected`. -/
def onClose (autoReconnect : Bool) (reconnectDelay : Nat)
    (callId wsToken : Option String) (code : Nat) (s : ChannelState) :
    ChannelState :=
  let s1 := { s with pingTimer := false, textChatEnabled := false }
  if shouldReconnect autoReconnect callId wsToken code then
    { s1 with connectionState := ChanConnState.reconnecting
              reconnectTimer := some reconnectDelay }
  else { s1 with connectionState := ChanConnState.disconnected }

/-- C4: a close with code 1000, 4000 or in 4001–4099 never schedules a
reconnect (the reconnect-timer slot is untouched) and the state becomes
`disconnected`; every other close code, with auto-reconnect on and callId
and wsToken present, moves the state to `reconnecting` and schedules a
reconnect after the configured delay, whose default is 2000 ms. -/
theorem channel_close_reconnect_policy (autoReconnect : Bool)
    (reconnectDelay : Nat) (callId wsToken : Option String) (code : Nat)
    (s : ChannelState) :
    ((code = 1000 ∨ code = 4000 ∨ (4001 ≤ code ∧ code ≤ 4099)) →
        onClose autoReconnect reconnectDelay callId wsToken code s =
          { s with pingTimer := false, textChatEnabled := false,
                   connectionState := ChanConnState.disconnected })
    ∧ (code ≠ 1000 → code ≠ 4000 → ¬(4001 ≤ code ∧ code ≤ 4099) →
        autoReconnect = true → truthy callId = true → truthy wsToken = true →
        onClose autoReconnect reconnectDelay callId wsToken code s =
          { s with pingTimer := false, textChatEnabled := false,
                   connectionState := ChanConnState.reconnecting,
                   reconnectTimer := some reconnectDelay })
    ∧ defaultReconnectDelay = 2000 := by
  refine ⟨?_, ?_, rfl⟩
  · intro h
    have hsr : shouldReconnect autoReconnect callId wsToken code = false := by
      unfold shouldReconnect
      rcases h with h | h | h
      · simp [h]
      · simp [h]
      · simp [h.1, h.2]
    unfold onClose
    rw [hsr]
    simp
  · intro h1 h2 h3 ha hc hw
    have hsr : shouldReconnect autoReconnect callId wsToken code = true := by
      unfold shouldReconnect
      by_cases h4 : 4001 ≤ code
      · have h5 : ¬(code ≤ 4099) := fun h5 => h3 ⟨h4, h5⟩
        simp [ha, hc, hw, h1, h2, h4, h5]
      · simp [ha, hc, hw, h1, h2, h4]
    unfold onClose
    rw [hsr]
    simp

/-- Witness for C4: an abnormal 1006 close with auto-reconnect on
schedules the default 2000 ms reconnect and enters `reconnecting`. -/
theorem channel_close_reconnect_policy_witness :
    onClose true 2000 (some "call1") (some "tok1") 1006
        { connectionState := ChanConnState.connected, pingTimer := true,
          reconnectTimer := none, textChatEnabled := true } =
      { connectionState := ChanConnState.reconnecting, pingTimer := false,
        reconnectTimer := some 2000, textChatEnabled := false } :=
  (channel_close_reconnect_policy true 2000 (some "call1") (some "tok1") 1006
      { connectionState := ChanConnState.connected, pingTimer := true,
        reconnectTimer := none, textChatEnabled := true }).2.1
    (by decide) (by decide) (by decide) rfl (by decide) (by decide)

/-- The channel socket as the send path sees it: its ready state, and
whether `ws.send` would throw on it. -/
structure ChanSocket where
  readyState : ReadyState
  sendThrows : Bool
  deriving DecidableEq, Repr

/-- The channel-client state touched by the text-chat toggles: the socket
ref, the optimistic `textChatEnabled` flag, and `lastError`. -/
structure ChanSendState where
  ws : Option ChanSocket
  textChatEnabled : Bool
  lastError : Option String
  deriving DecidableEq, Repr

/-- `sendRawMessage`: false without a socket in the OPEN state; on an open
socket a throwing `send` is caught, recorded through `handleError`, and
reported as false; otherwise the frame goes out and the result is true.
(The frame's content does not influence this path.) -/
def sendRawMessage (s : ChanSendState) : Bool × ChanSendState :=
  match s.ws with
  | none => (false, s)
  | some sock =>
      if sock.readyState ≠ ReadyState.opened then (false, s)
      else if sock.sendThrows then
        (false, { s with lastError := some "Failed to send message" })
      else (true, s)

/-- `enableTextChat`: false without a callId; otherwise send the enable
control frame and set the optimistic flag only when the send succeeded. -/
def enableTextChat (callId : Option String) (s : ChanSendState) :
    Bool × ChanSendState :=
  if truthy callId = false then (false, s)
  else
    match sendRawMessage s with
    | (true, s1) => (true, { s1 with textChatEnabled := true })
    | (false, s1) => (false, s1)

/-- `disableTextChat`: false without a callId; otherwise send the disable
control frame and clear the optimistic flag only when the send
succeeded. -/
def disableTextChat (callId : Option String) (s : ChanSendState) :
    Bool × ChanSendState :=
  if truthy callId = false then (false, s)
  else
    match sendRawMessage s with
    | (true, s1) => (true, { s1 with textChatEnabled := false })
    | (false, s1) => (false, s1)

/-- C10: when the callId is absent or the channel socket is not open,
`enableTextChat` and `disableTextChat` return false and leave the whole
channel state — in particular `textChatEnabled` — exactly as it was. -/
theorem text_chat_toggle_frame (callId : Option String) (s : ChanSendState)
    (h : truthy callId = false ∨
      ∀ sock, s.ws = some sock → sock.readyState ≠ ReadyState.opened) :
    enableTextChat callId s = (false, s)
    ∧ disableTextChat callId s = (false, s) := by
  have hsend : truthy callId = true → sendRawMessage s = (false, s) := by
    intro hc
    rcases h with h | h
    · rw [hc] at h
      exact absurd h (by simp)
    · unfold sendRawMessage
      rcases hw : s.ws with _ | sock
      · rfl
      · simp [h sock hw]
  constructor
  · unfold enableTextChat
    rcases hc : truthy callId with _ | _
    · simp [hc]
    · simp [hc, hsend hc]
  · unfold disableTextChat
    rcases hc : truthy callId with _ | _
    · simp [hc]
    · simp [hc, hsend hc]

/-- Witness for C10: a present callId but a closed socket leaves the state
untouched. -/
theorem text_chat_toggle_frame_witness :
    ((truthy (some "call1") = false ∨
        ∀ sock, (some { readyState := ReadyState.closed, sendThrows := false }
              : Option ChanSocket) = some sock →
            sock.readyState ≠ ReadyState.opened))
    ∧ enableTextChat (some "call1")
        { ws := some { readyState := ReadyState.closed, sendThrows := false },
          textChatEnabled := false, lastError := none } =
        (false, { ws := some { readyState := ReadyState.closed,
                               sendThrows := false },
                  textChatEnabled := false, lastError := none })
    ∧ disableTextChat (some "call1")
        { ws := some { readyState := ReadyState.closed, sendThrows := false },
          textChatEnabled := false, lastError := none } =
        (false, { ws := some { readyState := ReadyState.closed,
                               sendThrows := false },
                  textChatEnabled := false, lastError := none }) :=
  ⟨Or.inr (fun sock hs => by cases hs; decide),
   (text_chat_toggle_frame (some "call1")
      { ws := some { readyState := ReadyState.closed, sendThrows := false },
        textChatEnabled := false, lastError := none }
      (Or.inr (fun sock hs => by cases hs; decide))).1,
   (text_chat_toggle_frame (some "call1")
      { ws := some { readyState := ReadyState.closed, sendThrows := false },
        textChatEnabled := false, lastError := none }
      (Or.inr (fun sock hs => by cases hs; decide))).2⟩

/-- An action payload as the channel dispatcher reads it. -/
structure ActionPayload where
  actionId : String
  requiresResponse : Bool
  deriving DecidableEq, Repr

/-- What the caller-supplied action handler does for one action: return
the synchronous result shape, return the async-acknowledgement shape
(`async: true`), or throw. -/
inductive HandlerResult where
  | syncRes (success : Bool)
  | asyncRes
  | throws
  deriving DecidableEq, Repr

/-- An outbound `action_result` frame, reduced to the correlation and
finality fields the claim is about. -/
structure ActionResultMsg where
  actionId : String
  status : Option String
  success : Bool
  isFinal : Bool
  deriving DecidableEq, Repr

/-- `createActionAckMessage` (channel.ts): a non-final acknowledgment. -/
def createActionAckMessage (actionId status : String) : ActionResultMsg :=
  { actionId := actionId, status := some status, success := true,
    isFinal := false }

/-- `createActionResultMessage` (channel.ts): sync results are always
final and carry no status. -/
def createActionResultMessage (actionId : String) (success : Bool) :
    ActionResultMsg :=
  { actionId := actionId, status := none, success := success, isFinal := true }

/-- `createAsyncActionResultMessage` (channel.ts): the terminal async
result, final with status completed/failed. -/
def createAsyncActionResultMessage (actionId : String) (success : Bool) :
    ActionResultMsg :=
  { actionId := actionId,
    status := some (if success then "completed" else "failed"),
    success := success, isFinal := true }

/-- The channel interactions that emit `action_result` frames: the
`action` case of `handleMessage` running the caller's handler, and an
explicit `sendAsyncActionResult` call by the caller. -/
inductive ChanEvent where
  | recvAction (a : ActionPayload) (res : HandlerResult)
  | callSendAsyncActionResult (actionId : String) (success : Bool)
  deriving DecidableEq, Repr

/-- The frames one interaction sends, given whether the channel socket is
open and the current callId (both checked by the source before sending):
the action case acks an async result, sends a final result for a sync
result, and sends a final failure result when the handler throws, each
only when the action requires a response and a callId exists;
`sendAsyncActionResult` sends one terminal frame when a callId exists. -/
def eventSends (wsOpen : Bool) (callId : Option String) :
    ChanEvent → List ActionResultMsg
  | ChanEvent.recvAction a res =>
      match res with
      | HandlerResult.asyncRes =>
          if a.requiresResponse && truthy callId && wsOpen then
            [createActionAckMessage a.actionId "received"]
          else []
      | HandlerResult.syncRes ok =>
          if a.requiresResponse && truthy callId && wsOpen then
            [createActionResultMessage a.actionId ok]
          else []
      | HandlerResult.throws =>
          if a.requiresResponse && truthy callId && wsOpen then
            [createActionResultMessage a.actionId false]
          else []
  | ChanEvent.callSendAsyncActionResult actionId success =>
      if truthy callId && wsOpen then
        [createAsyncActionResultMessage actionId success]
      else []

/-- All frames sent over a trace of channel interactions, in order. -/
def channelSends (wsOpen : Bool) (callId : Option String) :
    List ChanEvent → List ActionResultMsg
  | [] => []
  | e :: rest => eventSends wsOpen callId e ++ channelSends wsOpen callId rest

/-- A terminal (final) action result correlated to `aid`. -/
def isTerminalFor (aid : String) (m : ActionResultMsg) : Bool :=
  m.isFinal && decide (m.actionId = aid)

/-- An explicit `sendAsyncActionResult` call for `aid`. -/
def isAsyncCallFor (aid : String) : ChanEvent → Bool
  | ChanEvent.callSendAsyncActionResult a _ => decide (a = aid)
  | _ => false

lemma eventSends_terminal_count (wsOpen : Bool) (callId : Option String)
    (aid : String) (e : ChanEvent)
    (h : ∀ a res, e = ChanEvent.recvAction a res → a.actionId = aid →
        res = HandlerResult.asyncRes) :
    (eventSends wsOpen callId e).countP (isTerminalFor aid) =
      if truthy callId && wsOpen then
        (if isAsyncCallFor aid e then 1 else 0)
      else 0 := by
  cases e with
  | recvAction a res =>
      have hrhs : (if truthy callId && wsOpen then
          (if isAsyncCallFor aid (ChanEvent.recvAction a res) then 1 else 0)
          else 0) = 0 := by
        simp [isAsyncCallFor]
      rw [hrhs]
      by_cases ha : a.actionId = aid
      · have hres := h a res rfl ha
        subst hres
        by_cases hcond : (a.requiresResponse && truthy callId && wsOpen) = true <;>
          simp [eventSends, hcond, isTerminalFor, createActionAckMessage]
      · cases res <;>
          · by_cases hcond :
                (a.requiresResponse && truthy callId && wsOpen) = true <;>
              simp [eventSends, hcond, isTerminalFor, createActionAckMessage,
                createActionResultMessage, ha]
  | callSendAsyncActionResult b ok =>
      by_cases husable : (truthy callId && wsOpen) = true
      · by_cases hb : b = aid <;>
          simp [eventSends, husable, isAsyncCallFor, isTerminalFor,
            createAsyncActionResultMessage, hb]
      · simp [eventSends, husable, isAsyncCallFor]

lemma eventSends_shape (wsOpen : Bool) (callId : Option String)
    (aid : String) (e : ChanEvent)
    (h : ∀ a res, e = ChanEvent.recvAction a res → a.actionId = aid →
        res = HandlerResult.asyncRes) :
    ∀ m ∈ eventSends wsOpen callId e, m.actionId = aid →
      m = createActionAckMessage aid "received"
      ∨ ∃ ok, m = createAsyncActionResultMessage aid ok := by
  intro m hm hmid
  cases e with
  | recvAction a res =>
      by_cases hcond : (a.requiresResponse && truthy callId && wsOpen) = true
      · by_cases ha : a.actionId = aid
        · have hres := h a res rfl ha
          subst hres
          simp [eventSends, hcond] at hm
          subst hm
          left
          rw [ha]
        · exfalso
          apply ha
          cases res <;>
            · simp [eventSends, hcond] at hm
              subst hm
              simpa [createActionAckMessage, createActionResultMessage]
                using hmid
      · exfalso
        cases res <;> simp [eventSends, hcond] at hm
  | callSendAsyncActionResult b ok =>
      by_cases husable : (truthy callId && wsOpen) = true
      · simp [eventSends, husable] at hm
        subst hm
        have hb : b = aid := by
          simpa [createAsyncActionResultMessage] using hmid
        subst hb
        exact Or.inr ⟨ok, rfl⟩
      · exfalso
        simp [eventSends, husable] at hm

lemma channelSends_terminal_count (wsOpen : Bool) (callId : Option String)
    (aid : String) (evs : List ChanEvent)
    (h : ∀ a res, ChanEvent.recvAction a res ∈ evs → a.actionId = aid →
        res = HandlerResult.asyncRes) :
    (channelSends wsOpen callId evs).countP (isTerminalFor aid) =
      if truthy callId && wsOpen then evs.countP (isAsyncCallFor aid)
      else 0 := by
  induction evs with
  | nil => simp [channelSends]
  | cons e rest ih =>
      have h1 := eventSends_terminal_count wsOpen callId aid e
        (fun a res he ha => h a res (by rw [← he]; exact List.mem_cons_self e rest) ha)
      have h2 := ih (fun a res hm ha => h a res (List.mem_cons_of_mem e hm) ha)
      show (eventSends wsOpen callId e ++
          channelSends wsOpen callId rest).countP (isTerminalFor aid) = _
      rw [List.countP_append, h1, h2, List.countP_cons]
      by_cases hu : (truthy callId && wsOpen) = true <;>
        by_cases hp : isAsyncCallFor aid e = true <;>
          simp [hu, hp, Nat.add_comm]

lemma channelSends_shape (wsOpen : Bool) (callId : Option String)
    (aid : String) (evs : List ChanEvent)
    (h : ∀ a res, ChanEvent.recvAction a res ∈ evs → a.actionId = aid →
        res = HandlerResult.asyncRes) :
    ∀ m ∈ channelSends wsOpen callId evs, m.actionId = aid →
      m = createActionAckMessage aid "received"
      ∨ ∃ ok, m = createAsyncActionResultMessage aid ok := by
  induction evs with
  | nil =>
      intro m hm
      simp [channelSends] at hm
  | cons e rest ih =>
      intro m hm hmid
      have hsplit : m ∈ eventSends wsOpen callId e ∨
          m ∈ channelSends wsOpen callId rest := List.mem_append.mp hm
      rcases hsplit with hm1 | hm1
      · exact eventSends_shape wsOpen callId aid e
          (fun a res he ha =>
            h a res (by rw [← he]; exact List.mem_cons_self e rest) ha)
          m hm1 hmid
      · exact ih (fun a res hmm ha => h a res (List.mem_cons_of_mem e hmm) ha)
          m hm1 hmid

/-- C5 counterexample: with the channel open and a callId present, the
caller can invoke `sendAsyncActionResult` twice for the same actionId
after the async acknowledgment, and the code sends two terminal
(isFinal = true) results for that actionId — the claimed "exactly one
terminal result is ever sent per actionId" fails. -/
theorem async_action_two_terminals :
    ((channelSends true (some "call1")
        [ChanEvent.recvAction
            { actionId := "a1", requiresResponse := true }
            HandlerResult.asyncRes,
         ChanEvent.callSendAsyncActionResult "a1" true,
         ChanEvent.callSendAsyncActionResult "a1" true]).countP
        (isTerminalFor "a1") = 2)
    ∧ ¬((channelSends true (some "call1")
        [ChanEvent.recvAction
            { actionId := "a1", requiresResponse := true }
            HandlerResult.asyncRes,
         ChanEvent.callSendAsyncActionResult "a1" true,
         ChanEvent.callSendAsyncActionResult "a1" true]).countP
        (isTerminalFor "a1") = 1) := by
  constructor <;> decide

/-- C5 (amended): for an actionId whose every received action got the
async-acknowledgement handler result, the action-handling path itself
sends only the non-final "received" acknowledgment and never a terminal
result; terminal results for that actionId arise solely from explicit
`sendAsyncActionResult` calls, each successful one sending exactly one —
so the number of terminal results equals the number of explicit calls
made while the channel is usable (callId present, socket open), rather
than being exactly one unconditionally. -/
theorem async_action_results (wsOpen : Bool) (callId : Option String)
    (aid : String) (evs : List ChanEvent)
    (h : ∀ a res, ChanEvent.recvAction a res ∈ evs → a.actionId = aid →
        res = HandlerResult.asyncRes) :
    (∀ m ∈ channelSends wsOpen callId evs, m.actionId = aid →
        m = createActionAckMessage aid "received"
        ∨ ∃ ok, m = createAsyncActionResultMessage aid ok)
    ∧ (channelSends wsOpen callId evs).countP (isTerminalFor aid) =
        (if truthy callId && wsOpen then evs.countP (isAsyncCallFor aid)
         else 0) :=
  ⟨channelSends_shape wsOpen callId aid evs h,
   channelSends_terminal_count wsOpen callId aid evs h⟩

/-- Witness for the amended C5 on a trace with one async action and one
explicit terminal call. -/
theorem async_action_results_witness :
    (∀ a res, ChanEvent.recvAction a res ∈
        [ChanEvent.recvAction
            { actionId := "a1", requiresResponse := true }
            HandlerResult.asyncRes,
         ChanEvent.callSendAsyncActionResult "a1" true] →
        a.actionId = "a1" → res = HandlerResult.asyncRes)
    ∧ ((∀ m ∈ channelSends true (some "call1")
          [ChanEvent.recvAction
              { actionId := "a1", requiresResponse := true }
              HandlerResult.asyncRes,
           ChanEvent.callSendAsyncActionResult "a1" true],
          m.actionId = "a1" →
          m = createActionAckMessage "a1" "received"
          ∨ ∃ ok, m = createAsyncActionResultMessage "a1" ok)
      ∧ (channelSends true (some "call1")
          [ChanEvent.recvAction
              { actionId := "a1", requiresResponse := true }
              HandlerResult.asyncRes,
           ChanEvent.callSendAsyncActionResult "a1" true]).countP
          (isTerminalFor "a1") =
        (if truthy (some "call1") && true then
          ([ChanEvent.recvAction
              { actionId := "a1", requiresResponse := true }
              HandlerResult.asyncRes,
            ChanEvent.callSendAsyncActionResult "a1" true].countP
            (isAsyncCallFor "a1"))
         else 0)) := by
  have hyp : ∀ a res, ChanEvent.recvAction a res ∈
      [ChanEvent.recvAction
          { actionId := "a1", requiresResponse := true }
          HandlerResult.asyncRes,
       ChanEvent.callSendAsyncActionResult "a1" true] →
      a.actionId = "a1" → res = HandlerResult.asyncRes := by
    intro a res hm ha
    simp only [List.mem_cons, List.not_mem_nil, or_false] at hm
    rcases hm with hm | hm
    · injection hm with h1 h2
    · exact absurd hm (by simp)
  exact ⟨hyp, async_action_results true (some "call1") "a1" _ hyp⟩

/-- The store/ref state the component's `handleHangup` and
`useHandleSipEvent` touch, with a ghost counter for hangup-callback
invocations. -/
structure PhoneState where
  status : String
  registered : Bool
  connected : Bool
  calling : Bool
  inCall : Bool
  chatOpen : Bool
  dtmfDigits : String
  currentCallId : Option String
  currentWsToken : Option String
  pendingReconnect : Option PersistedCallState
  reconnectScheduled : Bool
  storage : Option PersistedCallState
  refs : CallRefs
  hangupInvocations : Nat
  deriving DecidableEq, Repr

/-- `handleHangup` (WebRTCPhone component): send the hangup request
(errors ignored, no local state change), clear the in-call/calling flags
and call identifiers, close the chat panel, clear DTMF digits, restore
the status text, run the single cleanup routine, and clear the persisted
call state. -/
def handleHangup (s : PhoneState) : PhoneState :=
  { s with
    inCall := false
    calling := false
    currentCallId := none
    currentWsToken := none
    chatOpen := false
    dtmfDigits := ""
    status := if s.registered then "Connected" else "Disconnected"
    refs := cleanupCall s.refs
    storage := none }

/-- Running the externally registered hangup callback
(`onHangupRef.current`, which the component sets to `handleHangup`); the
counter records that the callback ran once. -/
def invokeOnHangup (s : PhoneState) : PhoneState :=
  { handleHangup s with hangupInvocations := s.hangupInvocations + 1 }

/-- `useHandleSipEvent`'s dispatch on the computed SIP event string
(`result.event` or the fallback).  `jsep` says whether the frame carried
an SDP; `err`/`sdpFails` are the negotiation-environment oracles used
when a jsep is applied; `reason` is the failure reason interpolated into
the registration-failed status. -/
def handleSipEvent (err : Candidate → Bool) (sdpFails : Bool)
    (reason : String) (ev : String) (jsep : Bool) (s : PhoneState) :
    PhoneState :=
  if ev = "registering" then { s with status := "Registering..." }
  else if ev = "registered" then
    let s1 := { s with registered := true, connected := true,
                       status := "Connected" }
    if s.pendingReconnect.isSome then { s1 with reconnectScheduled := true }
    else s1
  else if ev = "registration_failed" then
    { s with registered := false,
             status := "Registration failed: " ++ reason,
             pendingReconnect := none, storage := none }
  else if ev = "calling" then { s with calling := true, status := "Calling..." }
  else if ev = "ringing" then { s with status := "Ringing..." }
  else if ev = "progress" then
    let s1 := { s with status := "Connecting..." }
    if jsep then { s1 with refs := handleRemoteJsep err sdpFails s1.refs }
    else s1
  else if ev = "accepted" then
    let s1 := { s with inCall := true, calling := false, status := "In Call" }
    if jsep then { s1 with refs := handleRemoteJsep err sdpFails s1.refs }
    else s1
  else if ev = "hangup" then invokeOnHangup s
  else if ev = "declining" then invokeOnHangup s
  else if ev = "missed" then invokeOnHangup s
  else s

/-- C7: a hangup, declining or missed SIP event invokes the registered
hangup callback exactly once; that callback clears the inCall and calling
flags (the phase is back to idle), deletes the persisted call state, and
routes resource teardown through the single `cleanupCall` routine. -/
theorem hangup_event_single_callback (err : Candidate → Bool)
    (sdpFails : Bool) (reason : String) (jsep : Bool) (s : PhoneState)
    (ev : String) (hev : ev = "hangup" ∨ ev = "declining" ∨ ev = "missed") :
    handleSipEvent err sdpFails reason ev jsep s = invokeOnHangup s
    ∧ (handleSipEvent err sdpFails reason ev jsep s).hangupInvocations
        = s.hangupInvocations + 1
    ∧ (handleSipEvent err sdpFails reason ev jsep s).inCall = false
    ∧ (handleSipEvent err sdpFails reason ev jsep s).calling = false
    ∧ (handleSipEvent err sdpFails reason ev jsep s).storage = none
    ∧ (handleSipEvent err sdpFails reason ev jsep s).refs = cleanupCall s.refs := by
  rcases hev with h | h | h <;> subst h <;>
    exact ⟨rfl, rfl, rfl, rfl, rfl, rfl⟩

/-- Witness for C7: a `hangup` event received while in a call. -/
theorem hangup_event_single_callback_witness :
    (("hangup" : String) = "hangup" ∨ ("hangup" : String) = "declining"
      ∨ ("hangup" : String) = "missed")
    ∧ (handleSipEvent (fun _ => false) false "" "hangup" false
          { status := "In Call", registered := true, connected := true,
            calling := false, inCall := true, chatOpen := true,
            dtmfDigits := "12", currentCallId := some "c1",
            currentWsToken := some "w1", pendingReconnect := none,
            reconnectScheduled := false,
            storage := some { callId := "c1", endpointId := "e1",
                              endpointName := none, appName := none,
                              startedAt := 0, wsToken := none,
                              telproDomain := some "tp" },
            refs := { pc := true, localStream := true, remoteAudioSrc := true,
                      localAudioSrc := true, pendingCandidates := [none],
                      remoteDescriptionSet := true, audioBlocked := false,
                      nativeAddCalls := [] },
            hangupInvocations := 0 } =
        invokeOnHangup
          { status := "In Call", registered := true, connected := true,
            calling := false, inCall := true, chatOpen := true,
            dtmfDigits := "12", currentCallId := some "c1",
            currentWsToken := some "w1", pendingReconnect := none,
            reconnectScheduled := false,
            storage := some { callId := "c1", endpointId := "e1",
                              endpointName := none, appName := none,
                              startedAt := 0, wsToken := none,
                              telproDomain := some "tp" },
            refs := { pc := true, localStream := true, remoteAudioSrc := true,
                      localAudioSrc := true, pendingCandidates := [none],
                      remoteDescriptionSet := true, audioBlocked := false,
                      nativeAddCalls := [] },
            hangupInvocations := 0 }
      ∧ (handleSipEvent (fun _ => false) false "" "hangup" false
          { status := "In Call", registered := true, connected := true,
            calling := false, inCall := true, chatOpen := true,
            dtmfDigits := "12", currentCallId := some "c1",
            currentWsToken := some "w1", pendingReconnect := none,
            reconnectScheduled := false,
            storage := some { callId := "c1", endpointId := "e1",
                              endpointName := none, appName := none,
                              startedAt := 0, wsToken := none,
                              telproDomain := some "tp" },
            refs := { pc := true, localStream := true, remoteAudioSrc := true,
                      localAudioSrc := true, pendingCandidates := [none],
                      remoteDescriptionSet := true, audioBlocked := false,
                      nativeAddCalls := [] },
            hangupInvocations := 0 }).hangupInvocations = 0 + 1
      ∧ (handleSipEvent (fun _ => false) false "" "hangup" false
          { status := "In Call", registered := true, connected := true,
            calling := false, inCall := true, chatOpen := true,
            dtmfDigits := "12", currentCallId := some "c1",
            currentWsToken := some "w1", pendingReconnect := none,
            reconnectScheduled := false,
            storage := some { callId := "c1", endpointId := "e1",
                              endpointName := none, appName := none,
                              startedAt := 0, wsToken := none,
                              telproDomain := some "tp" },
            refs := { pc := true, localStream := true, remoteAudioSrc := true,
                      localAudioSrc := true, pendingCandidates := [none],
                      remoteDescriptionSet := true, audioBlocked := false,
                      nativeAddCalls := [] },
            hangupInvocations := 0 }).inCall = false
      ∧ (handleSipEvent (fun _ => false) false "" "hangup" false
          { status := "In Call", registered := true, connected := true,
            calling := false, inCall := true, chatOpen := true,
            dtmfDigits := "12", currentCallId := some "c1",
            currentWsToken := some "w1", pendingReconnect := none,
            reconnectScheduled := false,
            storage := some { callId := "c1", endpointId := "e1",
                              endpointName := none, appName := none,
                              startedAt := 0, wsToken := none,
                              telproDomain := some "tp" },
            refs := { pc := true, localStream := true, remoteAudioSrc := true,
                      localAudioSrc := true, pendingCandidates := [none],
                      remoteDescriptionSet := true, audioBlocked := false,
                      nativeAddCalls := [] },
            hangupInvocations := 0 }).calling = false
      ∧ (handleSipEvent (fun _ => false) false "" "hangup" false
          { status := "In Call", registered := true, connected := true,
            calling := false, inCall := true, chatOpen := true,
            dtmfDigits := "12", currentCallId := some "c1",
            currentWsToken := some "w1", pendingReconnect := none,
            reconnectScheduled := false,
            storage := some { callId := "c1", endpointId := "e1",
                              endpointName := none, appName := none,
                              startedAt := 0, wsToken := none,
                              telproDomain := some "tp" },
            refs := { pc := true, localStream := true, remoteAudioSrc := true,
                      localAudioSrc := true, pendingCandidates := [none],
                      remoteDescriptionSet := true, audioBlocked := false,
                      nativeAddCalls := [] },
            hangupInvocations := 0 }).storage = none
      ∧ (handleSipEvent (fun _ => false) false "" "hangup" false
          { status := "In Call", registered := true, connected := true,
            calling := false, inCall := true, chatOpen := true,
            dtmfDigits := "12", currentCallId := some "c1",
            currentWsToken := some "w1", pendingReconnect := none,
            reconnectScheduled := false,
            storage := some { callId := "c1", endpointId := "e1",
                              endpointName := none, appName := none,
                              startedAt := 0, wsToken := none,
                              telproDomain := some "tp" },
            refs := { pc := true, localStream := true, remoteAudioSrc := true,
                      localAudioSrc := true, pendingCandidates := [none],
                      remoteDescriptionSet := true, audioBlocked := false,
                      nativeAddCalls := [] },
            hangupInvocations := 0 }).refs =
        cleanupCall
          { pc := true, localStream := true, remoteAudioSrc := true,
            localAudioSrc := true, pendingCandidates := [none],
            remoteDescriptionSet := true, audioBlocked := false,
            nativeAddCalls := [] }) :=
  ⟨Or.inl rfl,
   hangup_event_single_callback (fun _ => false) false "" false
     { status := "In Call", registered := true, connected := true,
       calling := false, inCall := true, chatOpen := true,
       dtmfDigits := "12", currentCallId := some "c1",
       currentWsToken := some "w1", pendingReconnect := none,
       reconnectScheduled := false,
       storage := some { callId := "c1", endpointId := "e1",
                         endpointName := none, appName := none,
                         startedAt := 0, wsToken := none,
                         telproDomain := some "tp" },
       refs := { pc := true, localStream := true, remoteAudioSrc := true,
                 localAudioSrc := true, pendingCandidates := [none],
                 remoteDescriptionSet := true, audioBlocked := false,
                 nativeAddCalls := [] },
       hangupInvocations := 0 }
     "hangup" (Or.inl rfl)⟩

/-- The failure points of the `useReconnectCall` body, each carrying the
raised error message when it fails: microphone acquisition
(`getUserMedia`), offer creation/application, and the `call` request
(gateway error or transaction timeout). -/
structure ReconnectEnv where
  gumError : Option String
  offerError : Option String
  callError : Option String
  deriving DecidableEq, Repr

/-- The first error the body runs into, if any. -/
def firstError (env : ReconnectEnv) : Option String :=
  match env.gumError with
  | some msg => some msg
  | none =>
      match env.offerError with
      | some msg => some msg
      | none => env.callError

/-- The state `useReconnectCall` touches: store flags/status and restored
call data, the pending-reconnect marker, the persisted storage, the call
refs, plus ghost counters for how many times the reconnecting flag was
set to false and the marker was nulled. -/
structure ReconnectState where
  reconnecting : Bool
  status : String
  calling : Bool
  endpointId : String
  endpointName : String
  appName : String
  currentCallId : Option String
  currentWsToken : Option String
  pendingReconnect : Option PersistedCallState
  storage : Option PersistedCallState
  refs : CallRefs
  clearReconnectingCount : Nat
  clearMarkerCount : Nat
  deriving DecidableEq, Repr

/-- `useReconnectCall`: set the reconnecting flag and status, throw before
the try block when the stored state has no truthy telproDomain; otherwise
run the body (cleanup, reset the remote-description flag, acquire the
microphone, build the peer connection, create the offer, send the call
request with the stored call id, restore call data, set calling), with a
catch that sets a failure status, clears persisted state and runs cleanup
again, and a finally that drops the reconnecting flag and the
pending-reconnect marker.  The catch swallows the error, so every path
that reaches the try block resolves. -/
def reconnectCall (env : ReconnectEnv) (state : PersistedCallState)
    (s0 : ReconnectState) : Except String Unit × ReconnectState :=
  let s := { s0 with reconnecting := true, status := "Reconnecting..." }
  if truthy state.telproDomain = false then
    (Except.error "TelPro domain not available in stored state", s)
  else
    let finallyStep := fun (s : ReconnectState) =>
      { s with reconnecting := false
               clearReconnectingCount := s.clearReconnectingCount + 1
               pendingReconnect := none
               clearMarkerCount := s.clearMarkerCount + 1 }
    let catchStep := fun (s : ReconnectState) (msg : String) =>
      let s := { s with status := "Reconnect failed: " ++ msg }
      let s := { s with storage := none }
      { s with refs := cleanupCall s.refs }
    let s := { s with refs := cleanupCall s.refs }
    let s := { s with refs := { s.refs with remoteDescriptionSet := false } }
    match env.gumError with
    | some msg => (Except.ok (), finallyStep (catchStep s msg))
    | none =>
      let s := { s with refs := { s.refs with localStream := true,
                                              localAudioSrc := true } }
      let s := { s with refs := { s.refs with pc := true } }
      match env.offerError with
      | some msg => (Except.ok (), finallyStep (catchStep s msg))
      | none =>
        match env.callError with
        | some msg => (Except.ok (), finallyStep (catchStep s msg))
        | none =>
          let s := { s with endpointId := state.endpointId }
          let s := if truthy state.endpointName then
              { s with endpointName := state.endpointName.getD "" } else s
          let s := if truthy state.appName then
              { s with appName := state.appName.getD "" } else s
          let s := { s with currentCallId := some state.callId }
          let s := if truthy state.wsToken then
              { s with currentWsToken := state.wsToken } else s
          let s := { s with calling := true }
          (Except.ok (), finallyStep s)

/-- C6 (amended): when the stored state has a signaling domain, every run
of `reconnectCall` resolves, clears the reconnecting flag and the
pending-reconnect marker exactly once, and on any body failure sets the
failure status, deletes the persisted call state, and releases the
acquired resources (peer connection and stream dropped, ICE queue and
remote-description flag reset).  The fail-fast no-domain path instead
throws before the try/catch/finally and performs none of this (see the
counterexample). -/
theorem reconnect_clears_flags_once (env : ReconnectEnv)
    (state : PersistedCallState) (s : ReconnectState)
    (hdom : truthy state.telproDomain = true) :
    (reconnectCall env state s).1 = Except.ok ()
    ∧ (reconnectCall env state s).2.reconnecting = false
    ∧ (reconnectCall env state s).2.pendingReconnect = none
    ∧ (reconnectCall env state s).2.clearReconnectingCount
        = s.clearReconnectingCount + 1
    ∧ (reconnectCall env state s).2.clearMarkerCount = s.clearMarkerCount + 1
    ∧ (∀ msg, firstError env = some msg →
        (reconnectCall env state s).2.status = "Reconnect failed: " ++ msg
        ∧ (reconnectCall env state s).2.storage = none
        ∧ (reconnectCall env state s).2.refs.pc = false
        ∧ (reconnectCall env state s).2.refs.localStream = false
        ∧ (reconnectCall env state s).2.refs.pendingCandidates = []
        ∧ (reconnectCall env state s).2.refs.remoteDescriptionSet = false) := by
  obtain ⟨ge, oe, ce⟩ := env
  rcases ge with _ | gmsg
  · rcases oe with _ | omsg
    · rcases ce with _ | cmsg
      · by_cases h1 : truthy state.endpointName = true <;>
          by_cases h2 : truthy state.appName = true <;>
            by_cases h3 : truthy state.wsToken = true <;>
              simp [reconnectCall, hdom, h1, h2, h3, firstError]
      · simp [reconnectCall, hdom, firstError, cleanupCall]
    · simp [reconnectCall, hdom, firstError, cleanupCall]
  · simp [reconnectCall, hdom, firstError, cleanupCall]

/-- Witness for the amended C6: a failing `call` request with a domain
present clears the flags once, deletes storage and releases resources. -/
theorem reconnect_clears_flags_once_witness :
    truthy ({ callId := "c1", endpointId := "e1", endpointName := none,
              appName := none, startedAt := 0, wsToken := none,
              telproDomain := some "tp" } : PersistedCallState).telproDomain
      = true
    ∧ ((reconnectCall
          { gumError := none, offerError := none,
            callError := some "Transaction timeout" }
          { callId := "c1", endpointId := "e1", endpointName := none,
            appName := none, startedAt := 0, wsToken := none,
            telproDomain := some "tp" }
          { reconnecting := false, status := "", calling := false,
            endpointId := "", endpointName := "", appName := "",
            currentCallId := none, currentWsToken := none,
            pendingReconnect := some { callId := "c1", endpointId := "e1",
                                       endpointName := none, appName := none,
                                       startedAt := 0, wsToken := none,
                                       telproDomain := some "tp" },
            storage := some { callId := "c1", endpointId := "e1",
                              endpointName := none, appName := none,
                              startedAt := 0, wsToken := none,
                              telproDomain := some "tp" },
            refs := { pc := true, localStream := true, remoteAudioSrc := true,
                      localAudioSrc := true, pendingCandidates := [none],
                      remoteDescriptionSet := true, audioBlocked := false,
                      nativeAddCalls := [] },
            clearReconnectingCount := 0, clearMarkerCount := 0 }).1
        = Except.ok ()
      ∧ (reconnectCall
          { gumError := none, offerError := none,
            callError := some "Transaction timeout" }
          { callId := "c1", endpointId := "e1", endpointName := none,
            appName := none, startedAt := 0, wsToken := none,
            telproDomain := some "tp" }
          { reconnecting := false, status := "", calling := false,
            endpointId := "", endpointName := "", appName := "",
            currentCallId := none, currentWsToken := none,
            pendingReconnect := some { callId := "c1", endpointId := "e1",
                                       endpointName := none, appName := none,
                                       startedAt := 0, wsToken := none,
                                       telproDomain := some "tp" },
            storage := some { callId := "c1", endpointId := "e1",
                              endpointName := none, appName := none,
                              startedAt := 0, wsToken := none,
                              telproDomain := some "tp" },
            refs := { pc := true, localStream := true, remoteAudioSrc := true,
                      localAudioSrc := true, pendingCandidates := [none],
                      remoteDescriptionSet := true, audioBlocked := false,
                      nativeAddCalls := [] },
            clearReconnectingCount := 0, clearMarkerCount := 0 }).2.reconnecting
        = false
      ∧ (reconnectCall
          { gumError := none, offerError := none,
            callError := some "Transaction timeout" }
          { callId := "c1", endpointId := "e1", endpointName := none,
            appName := none, startedAt := 0, wsToken := none,
            telproDomain := some "tp" }
          { reconnecting := false, status := "", calling := false,
            endpointId := "", endpointName := "", appName := "",
            currentCallId := none, currentWsToken := none,
            pendingReconnect := some { callId := "c1", endpointId := "e1",
                                       endpointName := none, appName := none,
                                       startedAt := 0, wsToken := none,
                                       telproDomain := some "tp" },
            storage := some { callId := "c1", endpointId := "e1",
                              endpointName := none, appName := none,
                              startedAt := 0, wsToken := none,
                              telproDomain := some "tp" },
            refs := { pc := true, localStream := true, remoteAudioSrc := true,
                      localAudioSrc := true, pendingCandidates := [none],
                      remoteDescriptionSet := true, audioBlocked := false,
                      nativeAddCalls := [] },
            clearReconnectingCount := 0, clearMarkerCount := 0 }).2.pendingReconnect
        = none
      ∧ (reconnectCall
          { gumError := none, offerError := none,
            callError := some "Transaction timeout" }
          { callId := "c1", endpointId := "e1", endpointName := none,
            appName := none, startedAt := 0, wsToken := none,
            telproDomain := some "tp" }
          { reconnecting := false, status := "", calling := false,
            endpointId := "", endpointName := "", appName := "",
            currentCallId := none, currentWsToken := none,
            pendingReconnect := some { callId := "c1", endpointId := "e1",
                                       endpointName := none, appName := none,
                                       startedAt := 0, wsToken := none,
                                       telproDomain := some "tp" },
            storage := some { callId := "c1", endpointId := "e1",
                              endpointName := none, appName := none,
                              startedAt := 0, wsToken := none,
                              telproDomain := some "tp" },
            refs := { pc := true, localStream := true, remoteAudioSrc := true,
                      localAudioSrc := true, pendingCandidates := [none],
                      remoteDescriptionSet := true, audioBlocked := false,
                      nativeAddCalls := [] },
            clearReconnectingCount := 0, clearMarkerCount := 0 }).2.clearReconnectingCount
        = 0 + 1
      ∧ (reconnectCall
          { gumError := none, offerError := none,
            callError := some "Transaction timeout" }
          { callId := "c1", endpointId := "e1", endpointName := none,
            appName := none, startedAt := 0, wsToken := none,
            telproDomain := some "tp" }
          { reconnecting := false, status := "", calling := false,
            endpointId := "", endpointName := "", appName := "",
            currentCallId := none, currentWsToken := none,
            pendingReconnect := some { callId := "c1", endpointId := "e1",
                                       endpointName := none, appName := none,
                                       startedAt := 0, wsToken := none,
                                       telproDomain := some "tp" },
            storage := some { callId := "c1", endpointId := "e1",
                              endpointName := none, appName := none,
                              startedAt := 0, wsToken := none,
                              telproDomain := some "tp" },
            refs := { pc := true, localStream := true, remoteAudioSrc := true,
                      localAudioSrc := true, pendingCandidates := [none],
                      remoteDescriptionSet := true, audioBlocked := false,
                      nativeAddCalls := [] },
            clearReconnectingCount := 0, clearMarkerCount := 0 }).2.clearMarkerCount
        = 0 + 1
      ∧ (∀ msg, firstError { gumError := none, offerError := none,
                             callError := some "Transaction timeout" }
            = some msg →
          (reconnectCall
            { gumError := none, offerError := none,
              callError := some "Transaction timeout" }
            { callId := "c1", endpointId := "e1", endpointName := none,
              appName := none, startedAt := 0, wsToken := none,
              telproDomain := some "tp" }
            { reconnecting := false, status := "", calling := false,
              endpointId := "", endpointName := "", appName := "",
              currentCallId := none, currentWsToken := none,
              pendingReconnect := some { callId := "c1", endpointId := "e1",
                                         endpointName := none, appName := none,
                                         startedAt := 0, wsToken := none,
                                         telproDomain := some "tp" },
              storage := some { callId := "c1", endpointId := "e1",
                                endpointName := none, appName := none,
                                startedAt := 0, wsToken := none,
                                telproDomain := some "tp" },
              refs := { pc := true, localStream := true,
                        remoteAudioSrc := true, localAudioSrc := true,
                        pendingCandidates := [none],
                        remoteDescriptionSet := true, audioBlocked := false,
                        nativeAddCalls := [] },
              clearReconnectingCount := 0, clearMarkerCount := 0 }).2.status
            = "Reconnect failed: " ++ msg
          ∧ (reconnectCall
            { gumError := none, offerError := none,
              callError := some "Transaction timeout" }
            { callId := "c1", endpointId := "e1", endpointName := none,
              appName := none, startedAt := 0, wsToken := none,
              telproDomain := some "tp" }
            { reconnecting := false, status := "", calling := false,
              endpointId := "", endpointName := "", appName := "",
              currentCallId := none, currentWsToken := none,
              pendingReconnect := some { callId := "c1", endpointId := "e1",
                                         endpointName := none, appName := none,
                                         startedAt := 0, wsToken := none,
                                         telproDomain := some "tp" },
              storage := some { callId := "c1", endpointId := "e1",
                                endpointName := none, appName := none,
                                startedAt := 0, wsToken := none,
                                telproDomain := some "tp" },
              refs := { pc := true, localStream := true,
                        remoteAudioSrc := true, localAudioSrc := true,
                        pendingCandidates := [none],
                        remoteDescriptionSet := true, audioBlocked := false,
                        nativeAddCalls := [] },
              clearReconnectingCount := 0, clearMarkerCount := 0 }).2.storage
            = none
          ∧ (reconnectCall
            { gumError := none, offerError := none,
              callError := some "Transaction timeout" }
            { callId := "c1", endpointId := "e1", endpointName := none,
              appName := none, startedAt := 0, wsToken := none,
              telproDomain := some "tp" }
            { reconnecting := false, status := "", calling := false,
              endpointId := "", endpointName := "", appName := "",
              currentCallId := none, currentWsToken := none,
              pendingReconnect := some { callId := "c1", endpointId := "e1",
                                         endpointName := none, appName := none,
                                         startedAt := 0, wsToken := none,
                                         telproDomain := some "tp" },
              storage := some { callId := "c1", endpointId := "e1",
                                endpointName := none, appName := none,
                                startedAt := 0, wsToken := none,
                                telproDomain := some "tp" },
              refs := { pc := true, localStream := true,
                        remoteAudioSrc := true, localAudioSrc := true,
                        pendingCandidates := [none],
                        remoteDescriptionSet := true, audioBlocked := false,
                        nativeAddCalls := [] },
              clearReconnectingCount := 0, clearMarkerCount := 0 }).2.refs.pc
            = false
          ∧ (reconnectCall
            { gumError := none, offerError := none,
              callError := some "Transaction timeout" }
            { callId := "c1", endpointId := "e1", endpointName := none,
              appName := none, startedAt := 0, wsToken := none,
              telproDomain := some "tp" }
            { reconnecting := false, status := "", calling := false,
              endpointId := "", endpointName := "", appName := "",
              currentCallId := none, currentWsToken := none,
              pendingReconnect := some { callId := "c1", endpointId := "e1",
                                         endpointName := none, appName := none,
                                         startedAt := 0, wsToken := none,
                                         telproDomain := some "tp" },
              storage := some { callId := "c1", endpointId := "e1",
                                endpointName := none, appName := none,
                                startedAt := 0, wsToken := none,
                                telproDomain := some "tp" },
              refs := { pc := true, localStream := true,
                        remoteAudioSrc := true, localAudioSrc := true,
                        pendingCandidates := [none],
                        remoteDescriptionSet := true, audioBlocked := false,
                        nativeAddCalls := [] },
              clearReconnectingCount := 0, clearMarkerCount := 0 }).2.refs.localStream
            = false
          ∧ (reconnectCall
            { gumError := none, offerError := none,
              callError := some "Transaction timeout" }
            { callId := "c1", endpointId := "e1", endpointName := none,
              appName := none, startedAt := 0, wsToken := none,
              telproDomain := some "tp" }
            { reconnecting := false, status := "", calling := false,
              endpointId := "", endpointName := "", appName := "",
              currentCallId := none, currentWsToken := none,
              pendingReconnect := some { callId := "c1", endpointId := "e1",
                                         endpointName := none, appName := none,
                                         startedAt := 0, wsToken := none,
                                         telproDomain := some "tp" },
              storage := some { callId := "c1", endpointId := "e1",
                                endpointName := none, appName := none,
                                startedAt := 0, wsToken := none,
                                telproDomain := some "tp" },
              refs := { pc := true, localStream := true,
                        remoteAudioSrc := true, localAudioSrc := true,
                        pendingCandidates := [none],
                        remoteDescriptionSet := true, audioBlocked := false,
                        nativeAddCalls := [] },
              clearReconnectingCount := 0, clearMarkerCount := 0 }).2.refs.pendingCandidates
            = []
          ∧ (reconnectCall
            { gumError := none, offerError := none,
              callError := some "Transaction timeout" }
            { callId := "c1", endpointId := "e1", endpointName := none,
              appName := none, startedAt := 0, wsToken := none,
              telproDomain := some "tp" }
            { reconnecting := false, status := "", calling := false,
              endpointId := "", endpointName := "", appName := "",
              currentCallId := none, currentWsToken := none,
              pendingReconnect := some { callId := "c1", endpointId := "e1",
                                         endpointName := none, appName := none,
                                         startedAt := 0, wsToken := none,
                                         telproDomain := some "tp" },
              storage := some { callId := "c1", endpointId := "e1",
                                endpointName := none, appName := none,
                                startedAt := 0, wsToken := none,
                                telproDomain := some "tp" },
              refs := { pc := true, localStream := true,
                        remoteAudioSrc := true, localAudioSrc := true,
                        pendingCandidates := [none],
                        remoteDescriptionSet := true, audioBlocked := false,
                        nativeAddCalls := [] },
              clearReconnectingCount := 0, clearMarkerCount := 0 }).2.refs.remoteDescriptionSet
            = false)) :=
  ⟨rfl,
   reconnect_clears_flags_once
     { gumError := none, offerError := none,
       callError := some "Transaction timeout" }
     { callId := "c1", endpointId := "e1", endpointName := none,
       appName := none, startedAt := 0, wsToken := none,
       telproDomain := some "tp" }
     { reconnecting := false, status := "", calling := false,
       endpointId := "", endpointName := "", appName := "",
       currentCallId := none, currentWsToken := none,
       pendingReconnect := some { callId := "c1", endpointId := "e1",
                                  endpointName := none, appName := none,
                                  startedAt := 0, wsToken := none,
                                  telproDomain := some "tp" },
       storage := some { callId := "c1", endpointId := "e1",
                         endpointName := none, appName := none,
                         startedAt := 0, wsToken := none,
                         telproDomain := some "tp" },
       refs := { pc := true, localStream := true, remoteAudioSrc := true,
                 localAudioSrc := true, pendingCandidates := [none],
                 remoteDescriptionSet := true, audioBlocked := false,
                 nativeAddCalls := [] },
       clearReconnectingCount := 0, clearMarkerCount := 0 }
     rfl⟩

/-- C6 counterexample: called with a stored state that has no signaling
domain, `reconnectCall` throws before the try/catch/finally: the
reconnecting flag it just set stays true and is never cleared (the clear
counter stays 0), the pending-reconnect marker and the persisted call
state survive, and no failure status or cleanup happens — contradicting
"on any failure it reports a failure status, deletes the persisted call
state ... and on every completion ... clears the reconnecting flag and
the pending-reconnect marker exactly once". -/
theorem reconnect_no_domain_leaves_flags :
    (reconnectCall
        { gumError := none, offerError := none, callError := none }
        { callId := "c1", endpointId := "e1", endpointName := none,
          appName := none, startedAt := 0, wsToken := none,
          telproDomain := none }
        { reconnecting := false, status := "", calling := false,
          endpointId := "", endpointName := "", appName := "",
          currentCallId := none, currentWsToken := none,
          pendingReconnect := some { callId := "c1", endpointId := "e1",
                                     endpointName := none, appName := none,
                                     startedAt := 0, wsToken := none,
                                     telproDomain := none },
          storage := some { callId := "c1", endpointId := "e1",
                            endpointName := none, appName := none,
                            startedAt := 0, wsToken := none,
                            telproDomain := none },
          refs := { pc := true, localStream := true, remoteAudioSrc := false,
                    localAudioSrc := false, pendingCandidates := [],
                    remoteDescriptionSet := true, audioBlocked := false,
                    nativeAddCalls := [] },
          clearReconnectingCount := 0, clearMarkerCount := 0 }).1
      = Except.error "TelPro domain not available in stored state"
    ∧ (reconnectCall
        { gumError := none, offerError := none, callError := none }
        { callId := "c1", endpointId := "e1", endpointName := none,
          appName := none, startedAt := 0, wsToken := none,
          telproDomain := none }
        { reconnecting := false, status := "", calling := false,
          endpointId := "", endpointName := "", appName := "",
          currentCallId := none, currentWsToken := none,
          pendingReconnect := some { callId := "c1", endpointId := "e1",
                                     endpointName := none, appName := none,
                                     startedAt := 0, wsToken := none,
                                     telproDomain := none },
          storage := some { callId := "c1", endpointId := "e1",
                            endpointName := none, appName := none,
                            startedAt := 0, wsToken := none,
                            telproDomain := none },
          refs := { pc := true, localStream := true, remoteAudioSrc := false,
                    localAudioSrc := false, pendingCandidates := [],
                    remoteDescriptionSet := true, audioBlocked := false,
                    nativeAddCalls := [] },
          clearReconnectingCount := 0, clearMarkerCount := 0 }).2.reconnecting
      = true
    ∧ (reconnectCall
        { gumError := none, offerError := none, callError := none }
        { callId := "c1", endpointId := "e1", endpointName := none,
          appName := none, startedAt := 0, wsToken := none,
          telproDomain := none }
        { reconnecting := false, status := "", calling := false,
          endpointId := "", endpointName := "", appName := "",
          currentCallId := none, currentWsToken := none,
          pendingReconnect := some { callId := "c1", endpointId := "e1",
                                     endpointName := none, appName := none,
                                     startedAt := 0, wsToken := none,
                                     telproDomain := none },
          storage := some { callId := "c1", endpointId := "e1",
                            endpointName := none, appName := none,
                            startedAt := 0, wsToken := none,
                            telproDomain := none },
          refs := { pc := true, localStream := true, remoteAudioSrc := false,
                    localAudioSrc := false, pendingCandidates := [],
                    remoteDescriptionSet := true, audioBlocked := false,
                    nativeAddCalls := [] },
          clearReconnectingCount := 0,
          clearMarkerCount := 0 }).2.clearReconnectingCount = 0
    ∧ (reconnectCall
        { gumError := none, offerError := none, callError := none }
        { callId := "c1", endpointId := "e1", endpointName := none,
          appName := none, startedAt := 0, wsToken := none,
          telproDomain := none }
        { reconnecting := false, status := "", calling := false,
          endpointId := "", endpointName := "", appName := "",
          currentCallId := none, currentWsToken := none,
          pendingReconnect := some { callId := "c1", endpointId := "e1",
                                     endpointName := none, appName := none,
                                     startedAt := 0, wsToken := none,
                                     telproDomain := none },
          storage := some { callId := "c1", endpointId := "e1",
                            endpointName := none, appName := none,
                            startedAt := 0, wsToken := none,
                            telproDomain := none },
          refs := { pc := true, localStream := true, remoteAudioSrc := false,
                    localAudioSrc := false, pendingCandidates := [],
                    remoteDescriptionSet := true, audioBlocked := false,
                    nativeAddCalls := [] },
          clearReconnectingCount := 0, clearMarkerCount := 0 }).2.storage
      = some { callId := "c1", endpointId := "e1", endpointName := none,
               appName := none, startedAt := 0, wsToken := none,
               telproDomain := none }
    ∧ (reconnectCall
        { gumError := none, offerError := none, callError := none }
        { callId := "c1", endpointId := "e1", endpointName := none,
          appName := none, startedAt := 0, wsToken := none,
          telproDomain := none }
        { reconnecting := false, status := "", calling := false,
          endpointId := "", endpointName := "", appName := "",
          currentCallId := none, currentWsToken := none,
          pendingReconnect := some { callId := "c1", endpointId := "e1",
                                     endpointName := none, appName := none,
                                     startedAt := 0, wsToken := none,
                                     telproDomain := none },
          storage := some { callId := "c1", endpointId := "e1",
                            endpointName := none, appName := none,
                            startedAt := 0, wsToken := none,
                            telproDomain := none },
          refs := { pc := true, localStream := true, remoteAudioSrc := false,
                    localAudioSrc := false, pendingCandidates := [],
                    remoteDescriptionSet := true, audioBlocked := false,
                    nativeAddCalls := [] },
          clearReconnectingCount := 0, clearMarkerCount := 0 }).2.refs.pc
      = true := by
  refine ⟨rfl, rfl, rfl, rfl, rfl⟩
